import Mathlib

/-!
Shallow embedding of the two scripts of this repository:
`examples/t7_optuna_calibration.py` (namespace `Calib`) and
`my_countries/ZIM/run_ZIM.py` (namespace `ZIMRun`).

External libraries (the covasim `Sim` and `MultiSim`, optuna, the sciris
`parallelize`, the filesystem) are modelled as oracles: records of
functions whose results are arbitrary, returned by each call the scripts
make.  Each script-level function is translated line by line from the
Python source into a pure Lean function over those oracles; fallible
external calls return `Except PyErr`, and functions with observable side
effects also return a trace of `Event`s in the order the effects happen.
Numeric values are `ℚ`.
-/

namespace CovScripts

/-- A Python exception value: the `KeyError` a missing dict key raises, the
`IndexError` an out-of-range list subscript raises, or an arbitrary
exception raised inside an external library (tagged by a number). -/
inductive PyErr where
  | keyError (k : String)
  | indexError
  | libError (tag : ℕ)
deriving DecidableEq, Repr

namespace Calib

/-- A covasim intervention as configured by this script:
`cv.test_num` with `daily_tests` set to the string `data`. -/
inductive Intervention where
  | test_num (daily_tests : String)
deriving DecidableEq, Repr

/-- The simulation parameter dictionary `run_sim` builds: fixed start/end
days, the two calibrated numbers, one intervention, verbosity. -/
structure SimPars where
  start_day : String
  end_day : String
  beta : ℚ
  rel_death_prob : ℚ
  interventions : Intervention
  verbose : ℚ
deriving DecidableEq, Repr

/-- An opaque covasim `Sim` object as returned by the external library;
its internal state is abstracted to a number. -/
structure Sim where
  payload : ℕ
deriving DecidableEq, Repr

/-- The object `sim.compute_fit()` returns; only its `mismatch` field is
read by this script. -/
structure Fit where
  mismatch : ℚ
deriving DecidableEq, Repr

/-- An opaque optuna study record. -/
structure Study where
  payload : ℕ
deriving DecidableEq, Repr

/-- Oracle for the external covasim library: constructing a `Sim` from
parameters, a datafile path and a label; running it; computing its fit.
Each call may raise. -/
structure SimWorld where
  construct : SimPars → String → Option String → Except PyErr Sim
  runSim : Sim → Except PyErr Sim
  computeFit : Sim → Except PyErr Fit

/-- Oracle for the external optuna library: `op.load_study`,
`op.create_study` (each keyed by storage string and study name) and
`study.optimize` (whose opaque output is abstracted to a number). -/
structure OptWorld where
  load_study : String → String → Except PyErr Study
  create_study : String → String → Except PyErr Study
  optimize : Study → ℕ → Except PyErr ℕ

/-- An optuna trial object, seen through the only method this script
calls on it: `suggest_uniform(name, low, high)`. -/
structure Trial where
  suggest_uniform : String → ℚ → ℚ → ℚ

/-- The local filesystem, abstracted to the list of existing paths. -/
structure FS where
  files : List String
deriving DecidableEq, Repr

/-- `os.path.exists` on the abstract filesystem. -/
def os_path_exists (fs : FS) (p : String) : Bool :=
  fs.files.contains p

/-- `os.remove` on the abstract filesystem. -/
def os_remove (fs : FS) (p : String) : FS :=
  ⟨fs.files.filter (fun q => q != p)⟩

/-- An observable effect of the calibration script, recorded in order. -/
inductive Event where
  | printRunning (beta rel_death_prob : ℚ)
  | simConstructed (pars : SimPars) (datafile : String) (label : Option String)
  | simRan
  | fitComputed
  | fileRemoved (path : String)
  | createStudyCalled (storage name : String)
deriving DecidableEq, Repr

/-- Python dict subscript `d[k]` on a string-keyed mapping of numbers:
`some` the value, `none` when the key is missing (a `KeyError`). -/
def dictGet (d : List (String × ℚ)) (k : String) : Option ℚ :=
  d.lookup k

/-- What `run_sim` returns on success: the `Sim` object itself when
`return_sim` is true, otherwise the scalar `fit.mismatch`. -/
inductive RunSimOut where
  | simOut (s : Sim)
  | mismatchOut (m : ℚ)
deriving DecidableEq, Repr

/-- The `pars = dict(start_day=..., end_day=..., beta=..., rel_death_prob=...,
interventions=..., verbose=0)` literal built
inside `run_sim` from the two looked-up values. -/
def mkSimPars (b r : ℚ) : SimPars :=
  { start_day := "2020-02-01"
  , end_day := "2020-04-11"
  , beta := b
  , rel_death_prob := r
  , interventions := .test_num "data"
  , verbose := 0 }

/-- The hard-coded `datafile` argument of `cv.Sim(...)` in `run_sim`. -/
def datafile_path : String :=
  "/home/cliffk/idm/covasim/docs/tutorials/example_data.csv"

/-- `run_sim(pars, label=None, return_sim=False)`: looks up
`pars["beta"]` and `pars["rel_death_prob"]` (the f-string of the print is
evaluated first, so a missing key raises `KeyError` before anything else
happens), builds the fixed parameter dictionary, constructs the `Sim`
with the hard-coded datafile, runs it, computes the fit, and returns the
sim or the mismatch according to `return_sim`.  Returns the event trace
together with the result. -/
def run_sim (w : SimWorld) (pars : List (String × ℚ))
    (label : Option String := none) (return_sim : Bool := false) :
    List Event × Except PyErr RunSimOut :=
  match dictGet pars "beta" with
  | none => ([], .error (.keyError "beta"))
  | some b =>
    match dictGet pars "rel_death_prob" with
    | none => ([], .error (.keyError "rel_death_prob"))
    | some r =>
      let p := mkSimPars b r
      match w.construct p datafile_path label with
      | .error e => ([.printRunning b r], .error e)
      | .ok sim =>
        match w.runSim sim with
        | .error e =>
            ([.printRunning b r, .simConstructed p datafile_path label], .error e)
        | .ok sim2 =>
          match w.computeFit sim2 with
          | .error e =>
              ([.printRunning b r, .simConstructed p datafile_path label, .simRan],
               .error e)
          | .ok fit =>
              ([.printRunning b r, .simConstructed p datafile_path label, .simRan,
                .fitComputed],
               .ok (if return_sim then .simOut sim2 else .mismatchOut fit.mismatch))

/-- The `pars` dict that `run_trial` builds: `pars["beta"]` sampled in
[0.005, 0.020] and `pars["rel_death_prob"]` sampled in [0.5, 3.0]. -/
def run_trial_pars (t : Trial) : List (String × ℚ) :=
  [("beta", t.suggest_uniform "beta" (5/1000) (20/1000)),
   ("rel_death_prob", t.suggest_uniform "rel_death_prob" (1/2) 3)]

/-- `run_trial(trial)`: samples the two parameters, calls
`run_sim(pars)` with its default `label=None`, `return_sim=False`, and
returns its result (the mismatch). -/
def run_trial (w : SimWorld) (t : Trial) : List Event × Except PyErr RunSimOut :=
  run_sim w (run_trial_pars t) none false

/-- The setting `name` from the script: the string `my-example-calibration`. -/
def name : String := "my-example-calibration"

/-- The f-string that builds `db_name` by appending `.db`, as a function of
the study name it interpolates. -/
def db_file_of (nm : String) : String := nm ++ ".db"

/-- The f-string that builds `storage` by prefixing `sqlite:///`, as a
function of the database file name it interpolates. -/
def storage_of (db : String) : String := "sqlite:///" ++ db

/-- The setting `db_name` from the script: the study name with `.db`
appended. -/
def db_name : String := db_file_of name

/-- The setting `storage` from the script: `db_name` behind the
`sqlite:///` scheme prefix. -/
def storage : String := storage_of db_name

/-- `n_workers = 4` from the script settings. -/
def n_workers : ℕ := 4

/-- `n_trials = 25` from the script settings. -/
def n_trials : ℕ := 25

/-- `worker()`: loads the study from the shared storage, then runs
`study.optimize(run_trial, n_trials=n_trials)` and returns its output. -/
def worker (ow : OptWorld) : Except PyErr ℕ :=
  match ow.load_study storage name with
  | .error e => .error e
  | .ok study => ow.optimize study n_trials

/-- `sc.parallelize(g, n)` on a zero-argument function: runs `g` `n`
times and collects the outputs; an exception from any run is re-raised
unmodified by the parallel-map utility. -/
def par_apply (g : Unit → Except PyErr ℕ) : ℕ → Except PyErr (List ℕ)
  | 0 => .ok []
  | k + 1 =>
    match g () with
    | .error e => .error e
    | .ok v =>
      match par_apply g k with
      | .error e => .error e
      | .ok vs => .ok (v :: vs)

/-- `run_workers()`: fans `worker` out `n_workers` times via
`sc.parallelize` and returns the collected outputs. -/
def run_workers (ow : OptWorld) : Except PyErr (List ℕ) :=
  par_apply (fun _ => worker ow) n_workers

/-- `make_study()`: if a file named `db_name` exists it is removed (with
a print), then `op.create_study(storage=storage, study_name=name)` is
called and its result returned.  Returns the filesystem as left by the
own `os` calls of the script, the event trace, and the result. -/
def make_study (ow : OptWorld) (fs : FS) :
    FS × List Event × Except PyErr Study :=
  if os_path_exists fs db_name then
    (os_remove fs db_name,
     [.fileRemoved db_name, .createStudyCalled storage name],
     ow.create_study storage name)
  else
    (fs, [.createStudyCalled storage name], ow.create_study storage name)

end Calib

namespace ZIMRun

/-- A covasim `Sim` object as produced by the worker function of
`run_ZIM.py`: its `label` attribute (readable and writable by the
script) and an abstract payload standing for all its other state. -/
structure CSim where
  label : Option String
  payload : ℕ
deriving DecidableEq, Repr

/-- Oracle for the external covasim multi-run machinery: the effect of
running one sim on its abstract state, and the median trajectory of a
list of run results. -/
structure MsimWorld where
  runPayload : ℕ → ℕ
  medianOf : List ℕ → ℕ

/-- Modelled from the spec: `cv.MultiSim` is missing from `src/`; per the
spec it is "a bundle of repeated simulation runs (differing only by
random seed) used to compute aggregate/median outcomes" — a container
holding the sims, a label, the `keep_people` flag, and the computed
median trajectory once `median()` has run.  Running and median-taking
act on the trajectories of the runs; the per-sim `label` attributes are
configuration, untouched by them. -/
structure MultiSim where
  sims : List CSim
  label : String
  keep_people : Bool
  medianVal : Option ℕ
deriving DecidableEq, Repr

/-- `sc.parallelize(func=func, iterkwargs={"seed": range(n_runs)}, **kwargs)`:
an order-preserving parallel map of `func` over the seeds, each call also
receiving the extra keyword arguments. -/
def sc_parallelize {K : Type} (func : ℕ → K → CSim) (seeds : List ℕ)
    (kwargs : K) : List CSim :=
  seeds.map (fun s => func s kwargs)

/-- Modelled from the spec: `msim.run(keep_people=True)` (covasim code
missing from `src/`) runs every sim in the container, transforming each
state of each run and keeping the people; labels are not touched. -/
def msimRun (w : MsimWorld) (m : MultiSim) (keep_people : Bool) : MultiSim :=
  { m with
    sims := m.sims.map (fun s => { s with payload := w.runPayload s.payload })
    keep_people := keep_people }

/-- Modelled from the spec: `msim.median()` (covasim code missing from
`src/`) computes the median trajectory of the contained runs and
stores it; sims and labels are not touched. -/
def msimMedian (w : MsimWorld) (m : MultiSim) : MultiSim :=
  { m with medianVal := some (w.medianOf (m.sims.map (fun s => s.payload))) }

/-- `run_msim(func, n_runs, label, **kwargs)`: parallelizes `func` over
seeds `0, …, n_runs-1`, bundles the sims into a `MultiSim` with the given
label and `keep_people=True`, runs it with `keep_people=True`, computes
its median, then executes the workaround `msim.sims[0].label = label`
(an `IndexError` when there are no sims) and returns the container. -/
def run_msim {K : Type} (w : MsimWorld) (func : ℕ → K → CSim) (n_runs : ℕ)
    (label : String) (kwargs : K) : Except PyErr MultiSim :=
  let sims := sc_parallelize func (List.range n_runs) kwargs
  let msim : MultiSim :=
    { sims := sims, label := label, keep_people := true, medianVal := none }
  let msim1 := msimRun w msim true
  let msim2 := msimMedian w msim1
  match msim2.sims with
  | [] => .error .indexError
  | s :: rest => .ok { msim2 with sims := { s with label := some label } :: rest }

end ZIMRun

namespace Calib

/-- A concrete always-succeeding covasim oracle, used to instantiate
theorems at a concrete world. -/
def okSimWorld : SimWorld :=
  { construct := fun _ _ _ => .ok ⟨0⟩
  , runSim := fun s => .ok ⟨s.payload + 1⟩
  , computeFit := fun _ => .ok ⟨7⟩ }

/-- A concrete parameter mapping holding both calibration keys. -/
def okPars : List (String × ℚ) := [("beta", 1), ("rel_death_prob", 2)]

/-- A covasim oracle every call of which raises the given exception. -/
def raiseSimWorld (e : PyErr) : SimWorld :=
  { construct := fun _ _ _ => .error e
  , runSim := fun _ => .error e
  , computeFit := fun _ => .error e }

/-- A concrete always-succeeding optuna oracle. -/
def okOptWorld : OptWorld :=
  { load_study := fun _ _ => .ok ⟨0⟩
  , create_study := fun _ _ => .ok ⟨0⟩
  , optimize := fun _ _ => .ok 0 }

/-- An optuna oracle every call of which raises the given exception. -/
def raiseOptWorld (e : PyErr) : OptWorld :=
  { load_study := fun _ _ => .error e
  , create_study := fun _ _ => .error e
  , optimize := fun _ _ => .error e }

/-- The full event trace of a successful `run_sim` call. -/
def fullTrace (b r : ℚ) (label : Option String) : List Event :=
  [.printRunning b r, .simConstructed (mkSimPars b r) datafile_path label,
   .simRan, .fitComputed]

end Calib

namespace Calib

/-- C1: for every parameter mapping holding the keys `beta` and
`rel_death_prob`, when the external simulator calls succeed, `run_sim`
builds the simulation parameter dictionary from the two values, runs the
simulation, and returns the simulation object itself when `return_sim`
is true and the fit-mismatch scalar when it is false. -/
theorem run_sim_builds_runs_and_returns (w : SimWorld)
    (pars : List (String × ℚ)) (b r : ℚ) (label : Option String)
    (sim sim2 : Sim) (fit : Fit)
    (hb : dictGet pars "beta" = some b)
    (hr : dictGet pars "rel_death_prob" = some r)
    (hc : w.construct (mkSimPars b r) datafile_path label = .ok sim)
    (hrun : w.runSim sim = .ok sim2)
    (hf : w.computeFit sim2 = .ok fit) :
    run_sim w pars label true = (fullTrace b r label, .ok (.simOut sim2))
    ∧ run_sim w pars label false =
        (fullTrace b r label, .ok (.mismatchOut fit.mismatch)) := by
  constructor <;> simp [run_sim, fullTrace, hb, hr, hc, hrun, hf]

/-- Witness for C1 at a concrete mapping, label and world. -/
theorem run_sim_builds_runs_and_returns_witness :
    run_sim okSimWorld okPars (some "x") true =
      (fullTrace 1 2 (some "x"), .ok (.simOut ⟨1⟩))
    ∧ run_sim okSimWorld okPars (some "x") false =
      (fullTrace 1 2 (some "x"), .ok (.mismatchOut 7)) :=
  run_sim_builds_runs_and_returns okSimWorld okPars 1 2 (some "x")
    ⟨0⟩ ⟨1⟩ ⟨7⟩ rfl rfl rfl rfl rfl

/-- A concrete trial whose `suggest_uniform` returns the lower bound. -/
def loTrial : Trial := ⟨fun _ lo _ => lo⟩

/-- C2: for every trial whose `suggest_uniform` stays inside its bounds,
`run_trial` builds a mapping with exactly the keys `beta` (valued in
[0.005, 0.020]) and `rel_death_prob` (valued in [0.5, 3.0]), feeds it to
`run_sim`, and returns the resulting fit mismatch. -/
theorem run_trial_samples_and_delegates (w : SimWorld) (t : Trial)
    (hbound : ∀ nm lo hi, lo ≤ hi →
      lo ≤ t.suggest_uniform nm lo hi ∧ t.suggest_uniform nm lo hi ≤ hi) :
    (run_trial_pars t).map Prod.fst = ["beta", "rel_death_prob"]
    ∧ (∃ b, dictGet (run_trial_pars t) "beta" = some b
        ∧ 5/1000 ≤ b ∧ b ≤ 20/1000)
    ∧ (∃ r, dictGet (run_trial_pars t) "rel_death_prob" = some r
        ∧ 1/2 ≤ r ∧ r ≤ 3)
    ∧ run_trial w t = run_sim w (run_trial_pars t) none false := by
  obtain ⟨hb1, hb2⟩ := hbound "beta" (5/1000) (20/1000) (by norm_num)
  obtain ⟨hr1, hr2⟩ := hbound "rel_death_prob" (1/2) 3 (by norm_num)
  exact ⟨rfl, ⟨_, rfl, hb1, hb2⟩, ⟨_, rfl, hr1, hr2⟩, rfl⟩

/-- Witness for C2 at the concrete trial returning each lower bound. -/
theorem run_trial_samples_and_delegates_witness :
    (run_trial_pars loTrial).map Prod.fst = ["beta", "rel_death_prob"]
    ∧ run_trial okSimWorld loTrial =
        run_sim okSimWorld (run_trial_pars loTrial) none false := by
  have h := run_trial_samples_and_delegates okSimWorld loTrial
    (fun nm lo hi hlh => ⟨le_refl lo, hlh⟩)
  exact ⟨h.1, h.2.2.2⟩

/-- C9: for every mapping lacking the key `beta` or the key
`rel_death_prob`, `run_sim` raises a `KeyError` naming the first missing
key, with an empty event trace: no simulation is constructed or run. -/
theorem run_sim_missing_key_raises (w : SimWorld) (pars : List (String × ℚ))
    (label : Option String) (rs : Bool)
    (h : dictGet pars "beta" = none ∨ dictGet pars "rel_death_prob" = none) :
    run_sim w pars label rs =
      ([], .error (.keyError
        (if dictGet pars "beta" = none then "beta" else "rel_death_prob"))) := by
  rcases hb : dictGet pars "beta" with _ | b
  · simp [run_sim, hb]
  · rcases h with h | h
    · rw [hb] at h; exact absurd h (by simp)
    · simp [run_sim, hb, h]

/-- Witness for C9 at the empty mapping. -/
theorem run_sim_missing_key_raises_witness :
    run_sim okSimWorld [] none false = ([], .error (.keyError "beta")) := by
  simpa using run_sim_missing_key_raises okSimWorld [] none false (Or.inl rfl)

/-- C8: `run_sim` reads only the entries at `beta` and `rel_death_prob`
of its input mapping — two mappings agreeing there give identical
behaviour under the same label and flag — and the start day, end day,
intervention, verbosity and datafile of the constructed simulation are
fixed constants independent of the input. -/
theorem run_sim_depends_only_on_two_keys :
    (∀ (w : SimWorld) (p1 p2 : List (String × ℚ)) (label : Option String)
       (rs : Bool),
        dictGet p1 "beta" = dictGet p2 "beta" →
        dictGet p1 "rel_death_prob" = dictGet p2 "rel_death_prob" →
        run_sim w p1 label rs = run_sim w p2 label rs)
    ∧ (∀ b r, (mkSimPars b r).start_day = "2020-02-01"
        ∧ (mkSimPars b r).end_day = "2020-04-11"
        ∧ (mkSimPars b r).interventions = .test_num "data"
        ∧ (mkSimPars b r).verbose = 0)
    ∧ (∀ (w : SimWorld) (pars : List (String × ℚ)) (b r : ℚ)
         (label : Option String) (rs : Bool) (sim : Sim),
        dictGet pars "beta" = some b →
        dictGet pars "rel_death_prob" = some r →
        w.construct (mkSimPars b r) datafile_path label = .ok sim →
        Event.simConstructed (mkSimPars b r) datafile_path label ∈
          (run_sim w pars label rs).1) := by
  refine ⟨?_, fun b r => ⟨rfl, rfl, rfl, rfl⟩, ?_⟩
  · intro w p1 p2 label rs h1 h2
    unfold run_sim
    rw [h1, h2]
  · intro w pars b r label rs sim hb hr hc
    cases hrun : w.runSim sim with
    | error e => simp [run_sim, hb, hr, hc, hrun]
    | ok sim2 =>
      cases hf : w.computeFit sim2 with
      | error e => simp [run_sim, hb, hr, hc, hrun, hf]
      | ok fit => simp [run_sim, hb, hr, hc, hrun, hf]

/-- Witness for C8: an extra entry and a different ordering of the
mapping leave the result of `run_sim` unchanged. -/
theorem run_sim_depends_only_on_two_keys_witness :
    run_sim okSimWorld [("rel_death_prob", 2), ("junk", 99), ("beta", 1)]
        none false
      = run_sim okSimWorld okPars none false :=
  run_sim_depends_only_on_two_keys.1 okSimWorld
    [("rel_death_prob", 2), ("junk", 99), ("beta", 1)] okPars none false
    rfl rfl

/-- C5: every exception raised by an external-library call inside
`run_sim`, `run_trial`, `worker`, `run_workers` or `make_study`
propagates unmodified out of the function: no function catches,
translates, retries or recovers from it. -/
theorem external_errors_propagate (w : SimWorld) (ow : OptWorld) (t : Trial)
    (fs : FS) (pars : List (String × ℚ)) (b r : ℚ) (label : Option String)
    (rs : Bool) (e : PyErr)
    (hb : dictGet pars "beta" = some b)
    (hr : dictGet pars "rel_death_prob" = some r) :
    (w.construct (mkSimPars b r) datafile_path label = .error e →
        (run_sim w pars label rs).2 = .error e)
    ∧ (∀ sim, w.construct (mkSimPars b r) datafile_path label = .ok sim →
        w.runSim sim = .error e → (run_sim w pars label rs).2 = .error e)
    ∧ (∀ sim sim2, w.construct (mkSimPars b r) datafile_path label = .ok sim →
        w.runSim sim = .ok sim2 → w.computeFit sim2 = .error e →
        (run_sim w pars label rs).2 = .error e)
    ∧ ((run_sim w (run_trial_pars t) none false).2 = .error e →
        (run_trial w t).2 = .error e)
    ∧ (ow.load_study storage name = .error e → worker ow = .error e)
    ∧ (∀ st, ow.load_study storage name = .ok st →
        ow.optimize st n_trials = .error e → worker ow = .error e)
    ∧ (worker ow = .error e → run_workers ow = .error e)
    ∧ (ow.create_study storage name = .error e →
        (make_study ow fs).2.2 = .error e) := by
  refine ⟨?_, ?_, ?_, fun h => h, ?_, ?_, ?_, ?_⟩
  · intro hc; simp [run_sim, hb, hr, hc]
  · intro sim hc hrun; simp [run_sim, hb, hr, hc, hrun]
  · intro sim sim2 hc hrun hf; simp [run_sim, hb, hr, hc, hrun, hf]
  · intro h; simp [worker, h]
  · intro st hl ho; simp [worker, hl, ho]
  · intro h
    show par_apply (fun _ => worker ow) n_workers = .error e
    simp [n_workers, par_apply, h]
  · intro h
    cases hex : os_path_exists fs db_name <;> simp [make_study, hex, h]

/-- Witness for C5 at concrete raising oracles. -/
theorem external_errors_propagate_witness :
    (run_sim (raiseSimWorld (.libError 3)) okPars none false).2 =
        .error (.libError 3)
    ∧ worker (raiseOptWorld (.libError 3)) = .error (.libError 3)
    ∧ run_workers (raiseOptWorld (.libError 3)) = .error (.libError 3)
    ∧ (make_study (raiseOptWorld (.libError 3)) ⟨[]⟩).2.2 =
        .error (.libError 3) := by
  have h := external_errors_propagate (raiseSimWorld (.libError 3))
    (raiseOptWorld (.libError 3)) loTrial ⟨[]⟩ okPars 1 2 none false
    (.libError 3) rfl rfl
  have hw : worker (raiseOptWorld (.libError 3)) = .error (.libError 3) :=
    h.2.2.2.2.1 rfl
  exact ⟨h.1 rfl, hw, h.2.2.2.2.2.2.1 hw, h.2.2.2.2.2.2.2 rfl⟩

/-- C3: `make_study` deletes any pre-existing file with the study
database name before the create-study call is issued (so afterwards no
such file remains among what its own code left), and returns exactly
what the create-study call of the optimization library returns. -/
theorem make_study_deletes_then_creates (ow : OptWorld) (fs : FS) :
    (make_study ow fs).1.files.contains db_name = false
    ∧ (make_study ow fs).2.2 = ow.create_study storage name
    ∧ (os_path_exists fs db_name = true →
        (make_study ow fs).2.1 =
          [.fileRemoved db_name, .createStudyCalled storage name])
    ∧ (os_path_exists fs db_name = false →
        (make_study ow fs).2.1 = [.createStudyCalled storage name]) := by
  cases hex : os_path_exists fs db_name with
  | false =>
    have hmem : db_name ∉ fs.files := by simpa [os_path_exists] using hex
    refine ⟨?_, by simp [make_study, hex], by simp [hex], by simp [make_study, hex]⟩
    simp [make_study, hex, hmem]
  | true =>
    refine ⟨?_, by simp [make_study, hex], by simp [make_study, hex], by simp [hex]⟩
    simp [make_study, hex, os_remove]

/-- Witness for C3 at a filesystem holding exactly the database file. -/
theorem make_study_deletes_then_creates_witness :
    (make_study okOptWorld ⟨[db_name]⟩).1.files.contains db_name = false
    ∧ (make_study okOptWorld ⟨[db_name]⟩).2.1 =
        [.fileRemoved db_name, .createStudyCalled storage name] := by
  have h := make_study_deletes_then_creates okOptWorld ⟨[db_name]⟩
  exact ⟨h.1, h.2.2.1 (by simp [os_path_exists])⟩

/-- C6: for every study name, the database file path is the name with
`.db` appended, the connection string is that path behind `sqlite:///`,
the script settings instantiate both at `my-example-calibration`, and
`make_study` hands exactly that connection string (with the study name)
to the storage backend of the optimization library. -/
theorem storage_string_derivation :
    (∀ nm : String, db_file_of nm = nm ++ ".db"
      ∧ storage_of (db_file_of nm) = "sqlite:///" ++ (nm ++ ".db"))
    ∧ db_name = "my-example-calibration.db"
    ∧ storage = "sqlite:///my-example-calibration.db"
    ∧ ∀ (ow : OptWorld) (fs : FS),
        Event.createStudyCalled storage name ∈ (make_study ow fs).2.1 := by
  refine ⟨fun nm => ⟨rfl, rfl⟩, rfl, rfl, ?_⟩
  intro ow fs
  cases hex : os_path_exists fs db_name <;> simp [make_study, hex]

end Calib

namespace ZIMRun

/-- A concrete multi-run oracle used to instantiate theorems. -/
def zimW : MsimWorld := ⟨fun p => p + 1, fun l => l.foldl (fun a b => a + b) 0⟩

/-- A concrete worker function: the sim for seed `s` is labelled `w` and
the seed number, with state `s * 10`. -/
def zfunc : ℕ → Unit → CSim := fun s _ => ⟨some ("w" ++ toString s), s * 10⟩

/-- The list of per-sim labels of a `run_msim` result (empty on error);
an observer used to state concrete instantiations. -/
def simLabelsOf (r : Except PyErr MultiSim) : List (Option String) :=
  match r with
  | .error _ => []
  | .ok m => m.sims.map (fun s => s.label)

/-- Unfolding `run_msim` on a positive number of runs: the explicit
container it returns. -/
theorem run_msim_succ_eq {K : Type} (w : MsimWorld) (func : ℕ → K → CSim)
    (k : ℕ) (lab : String) (kw : K) :
    run_msim w func (k+1) lab kw = .ok
      { sims :=
          { label := some lab, payload := w.runPayload (func 0 kw).payload } ::
          (List.range k).map (fun s =>
            ({ label := (func (s+1) kw).label
             , payload := w.runPayload (func (s+1) kw).payload } : CSim))
      , label := lab
      , keep_people := true
      , medianVal := some (w.medianOf
          ((List.range (k+1)).map (fun s => w.runPayload (func s kw).payload))) } := by
  simp [run_msim, sc_parallelize, msimRun, msimMedian, List.range_succ_eq_map,
    List.map_map]
  rfl

/-- Full characterisation of a successful `run_msim` result: container
label, number of sims, the relabelled head, the untouched tail entries,
and the stored median. -/
theorem run_msim_ok_spec {K : Type} (w : MsimWorld) (func : ℕ → K → CSim)
    (n_runs : ℕ) (lab : String) (kw : K) (m : MultiSim)
    (h : run_msim w func n_runs lab kw = .ok m) :
    m.label = lab
    ∧ m.sims.length = n_runs
    ∧ (∀ hz : 0 < m.sims.length, (m.sims.get ⟨0, hz⟩).label = some lab)
    ∧ (∀ i, (hi : i < m.sims.length) → 0 < i →
        m.sims.get ⟨i, hi⟩ =
          { label := (func i kw).label
          , payload := w.runPayload (func i kw).payload })
    ∧ (∀ hz : 0 < m.sims.length,
        (m.sims.get ⟨0, hz⟩).payload = w.runPayload (func 0 kw).payload)
    ∧ m.medianVal = some (w.medianOf
        ((List.range n_runs).map (fun s => w.runPayload (func s kw).payload))) := by
  cases n_runs with
  | zero => simp [run_msim, sc_parallelize, msimRun, msimMedian] at h
  | succ k =>
    rw [run_msim_succ_eq] at h
    injection h with h
    subst h
    refine ⟨rfl, by simp, fun hz => rfl, ?_, fun hz => rfl, rfl⟩
    intro i hi hpos
    obtain ⟨j, rfl⟩ : ∃ j, i = j + 1 := ⟨i - 1, by omega⟩
    have hj : j < k := by simpa using hi
    simp [List.get_eq_getElem]

/-- C4 counterexample: called with zero runs, `run_msim` raises an
`IndexError` at the workaround subscript instead of returning the
multi-run container, so the claim fails as stated at `n_runs = 0`. -/
theorem run_msim_zero_runs_raises :
    run_msim zimW zfunc 0 "baseline" () = .error .indexError := rfl

/-- C4 (amended to at least one run): `run_msim` fans the worker out
across seeds `0, …, n_runs-1` via the parallel map, collects the runs
into a container carrying the given label, computes their median
trajectory, relabels the first sim, and returns the container. -/
theorem run_msim_fans_out_and_relabels {K : Type} (w : MsimWorld)
    (func : ℕ → K → CSim) (n_runs : ℕ) (lab : String) (kw : K)
    (h : 1 ≤ n_runs) :
    ∃ m, run_msim w func n_runs lab kw = .ok m
      ∧ m.label = lab
      ∧ m.sims.length = n_runs
      ∧ (∀ i, (hi : i < m.sims.length) →
          (m.sims.get ⟨i, hi⟩).payload = w.runPayload (func i kw).payload)
      ∧ m.medianVal = some (w.medianOf
          ((List.range n_runs).map (fun s => w.runPayload (func s kw).payload)))
      ∧ ∀ hz : 0 < m.sims.length, (m.sims.get ⟨0, hz⟩).label = some lab := by
  obtain ⟨k, rfl⟩ : ∃ k, n_runs = k + 1 := ⟨n_runs - 1, by omega⟩
  have heq := run_msim_succ_eq w func k lab kw
  obtain ⟨h1, h2, h3, h4, h5, h6⟩ :=
    run_msim_ok_spec w func (k+1) lab kw _ heq
  refine ⟨_, heq, h1, h2, ?_, h6, h3⟩
  intro i hi
  rcases Nat.eq_zero_or_pos i with hz | hp
  · subst hz; exact h5 hi
  · rw [h4 i hi hp]

/-- Witness for the amended C4 at two runs. -/
theorem run_msim_fans_out_and_relabels_witness :
    (run_msim zimW zfunc 2 "lab" ()).isOk = true := by
  obtain ⟨m, hm, -⟩ :=
    run_msim_fans_out_and_relabels zimW zfunc 2 "lab" () (by norm_num)
  rw [hm]; rfl

/-- C10: `run_msim` overwrites the label of only the first sim of the
container it returns, setting it to the label argument; every other sim
keeps exactly the label the worker function produced for its seed. -/
theorem run_msim_relabels_only_first {K : Type} (w : MsimWorld)
    (func : ℕ → K → CSim) (n_runs : ℕ) (lab : String) (kw : K)
    (m : MultiSim) (h : run_msim w func n_runs lab kw = .ok m) :
    (∀ hz : 0 < m.sims.length, (m.sims.get ⟨0, hz⟩).label = some lab)
    ∧ ∀ i, (hi : i < m.sims.length) → 0 < i →
        (m.sims.get ⟨i, hi⟩).label = (func i kw).label := by
  obtain ⟨-, -, h3, h4, -, -⟩ := run_msim_ok_spec w func n_runs lab kw m h
  exact ⟨h3, fun i hi hp => by rw [h4 i hi hp]⟩

/-- Witness for C10 at two runs: the first label is overwritten, the
second is the label the worker gave seed 1. -/
theorem run_msim_relabels_only_first_witness :
    simLabelsOf (run_msim zimW zfunc 2 "renamed" ()) =
      [some "renamed", some "w1"] := by
  have heq := run_msim_succ_eq zimW zfunc 1 "renamed" ()
  have h := run_msim_relabels_only_first zimW zfunc 2 "renamed" () _ heq
  have h0 := h.1 (by simp)
  have h1 := h.2 1 (by simp) (by norm_num)
  simp only [simLabelsOf, heq]
  simp only [List.range_succ_eq_map, List.range_zero, List.map_nil,
    List.map_cons]
  have hz1 : (zfunc 1 ()).label = some "w1" := rfl
  simpa [zfunc] using hz1

end ZIMRun

/-- C7 counterexample: `make_study` run on a filesystem holding the
study database file destroys that pre-existing external object by its
own logic, so the no-destruction claim fails as stated. -/
theorem internal_logic_destroys_counterexample :
    (Calib.make_study Calib.okOptWorld ⟨[Calib.db_name]⟩).1 ≠
      (⟨[Calib.db_name]⟩ : Calib.FS) := by
  decide

/-- C7 (amended): beyond dictionary construction, the only entities the
code of this repository creates, mutates or destroys by its own logic
are the pre-existing study database file, which `make_study` deletes
(and deletes nothing else), and the label of the first sim of the
container `run_msim` returns, which it overwrites; every other sim of
the container is returned exactly as run. -/
theorem internal_effects_only_delete_and_relabel :
    (∀ (ow : Calib.OptWorld) (fs : Calib.FS),
        (Calib.make_study ow fs).1.files =
          fs.files.filter (fun q => q != Calib.db_name))
    ∧ (∀ {K : Type} (w : ZIMRun.MsimWorld) (func : ℕ → K → ZIMRun.CSim)
         (n_runs : ℕ) (lab : String) (kw : K) (m : ZIMRun.MultiSim),
        ZIMRun.run_msim w func n_runs lab kw = .ok m →
        (∀ hz : 0 < m.sims.length, (m.sims.get ⟨0, hz⟩).label = some lab)
        ∧ ∀ i, (hi : i < m.sims.length) → 0 < i →
            m.sims.get ⟨i, hi⟩ =
              { label := (func i kw).label
              , payload := w.runPayload (func i kw).payload }) := by
  constructor
  · intro ow fs
    cases hex : Calib.os_path_exists fs Calib.db_name with
    | true => simp [Calib.make_study, hex, Calib.os_remove]
    | false =>
      have hmem : Calib.db_name ∉ fs.files := by
        simpa [Calib.os_path_exists] using hex
      have hfil : fs.files.filter (fun q => q != Calib.db_name) = fs.files := by
        rw [List.filter_eq_self]
        intro a ha
        have hne : a ≠ Calib.db_name := fun hEq => hmem (hEq ▸ ha)
        simpa using hne
      simp [Calib.make_study, hex, hfil]
  · intro K w func n_runs lab kw m h
    obtain ⟨-, -, h3, h4, -, -⟩ := ZIMRun.run_msim_ok_spec w func n_runs lab kw m h
    exact ⟨h3, h4⟩

/-- Witness for the amended C7: a concrete deletion leaving the other
file alone, and a concrete two-run container with only the first label
overwritten. -/
theorem internal_effects_only_delete_and_relabel_witness :
    (Calib.make_study Calib.okOptWorld
        ⟨[Calib.db_name, "other.txt"]⟩).1.files = ["other.txt"]
    ∧ ZIMRun.simLabelsOf (ZIMRun.run_msim ZIMRun.zimW ZIMRun.zfunc 2 "top" ()) =
        [some "top", some "w1"] := by
  constructor
  · have h := internal_effects_only_delete_and_relabel.1 Calib.okOptWorld
      ⟨[Calib.db_name, "other.txt"]⟩
    rw [h]; decide
  · have heq := ZIMRun.run_msim_succ_eq ZIMRun.zimW ZIMRun.zfunc 1 "top" ()
    have h := internal_effects_only_delete_and_relabel.2 ZIMRun.zimW
      ZIMRun.zfunc 2 "top" () _ heq
    have h0 := h.1 (by simp)
    have h1 := h.2 1 (by simp) (by norm_num)
    simp only [ZIMRun.simLabelsOf, heq]
    simp only [List.range_succ_eq_map, List.range_zero, List.map_nil,
      List.map_cons]
    have hz1 : (ZIMRun.zfunc 1 ()).label = some "w1" := rfl
    simpa [ZIMRun.zfunc] using hz1

end CovScripts
